import Mathlib

/-!
Verification of the `templater` repository (src/src/TemplatesManager.ts)
against its natural-language specification.

The filesystem is modelled explicitly as a state (`FS`); Node's dynamic
`require` of a template module is modelled as an oracle value
(`Except JsErr (TTemplateOptions → Except JsErr String)`): either the load
throws (carrying whether the thrown value is a `SyntaxError` instance and
its message) or it yields the render function, whose own invocation may in
turn throw.  Every operation returns its result together with the final
filesystem state, so "performs no write" is expressible as state equality.
-/

/-- `path.join(a, b)` for the well-formed inputs this program produces. -/
def pathJoin (a b : String) : String := a ++ "/" ++ b

/-- Suffix of a character list starting at its last dot, if any. -/
def fromLastDot : List Char → Option (List Char)
  | [] => none
  | c :: cs =>
    match fromLastDot cs with
    | some e => some e
    | none => if c = '.' then some (c :: cs) else none

/-- Characters after the last occurrence of `sep`, when `sep` occurs. -/
def afterLast (sep : Char) : List Char → Option (List Char)
  | [] => none
  | c :: cs =>
    match afterLast sep cs with
    | some r => some r
    | none => if c = sep then some cs else none

/-- `path.basename(p)`: the part after the last `/`, the whole of `p` otherwise. -/
def pathBasename (p : String) : String :=
  match afterLast '/' p.toList with
  | none => p
  | some r => String.mk r

/-- `path.extname` restricted to a basename: from the last dot to the end,
empty when there is no dot or the only dot starts the name. -/
def extnameBase (f : String) : String :=
  match fromLastDot f.toList with
  | none => ""
  | some e => if e.length = f.toList.length then "" else String.mk e

/-- `path.extname(p)` (Node takes the basename first). -/
def extname (p : String) : String := extnameBase (pathBasename p)

/-- `path.basename(p, path.extname(p))`: basename with its extension stripped. -/
def baseNoExt (p : String) : String :=
  let b := (pathBasename p).toList
  String.mk (b.take (b.length - (extnameBase (pathBasename p)).length))

/-- The first list is a prefix of the second. -/
def leadsWith : List Char → List Char → Bool
  | [], _ => true
  | _ :: _, [] => false
  | a :: as, b :: bs => (a == b) && leadsWith as bs

/-- `t` occurs somewhere in `s`. -/
def containsSubList (t : List Char) : List Char → Bool
  | [] => t.isEmpty
  | c :: rest => leadsWith t (c :: rest) || containsSubList t rest

/-- `t` occurs as a substring of `s`. -/
def containsSub (s t : String) : Bool := containsSubList t.toList s.toList

/-- The filesystem: files (path to content) and directories. -/
structure FS where
  files : List (String × String)
  dirs : List String
deriving DecidableEq

/-- `fs.readFileSync(p)` as a partial lookup. -/
def FS.readFile (s : FS) (p : String) : Option String :=
  (s.files.find? (fun q => q.1 == p)).map (fun q => q.2)

/-- A regular file exists at `p`. -/
def FS.isFile (s : FS) (p : String) : Bool := s.files.any (fun q => q.1 == p)

/-- `fs.existsSync(p)`: true for files and directories alike. -/
def FS.existsSync (s : FS) (p : String) : Bool := s.isFile p || s.dirs.contains p

/-- `fs.writeFileSync(p, c)`: create or overwrite the file at `p`. -/
def FS.writeFile (s : FS) (p c : String) : FS :=
  { s with files := (p, c) :: s.files.filter (fun q => q.1 != p) }

/-- `fs.mkdirSync` target state: the directory is recorded. -/
def FS.mkdir (s : FS) (p : String) : FS := { s with dirs := p :: s.dirs }

/-- The external `Configuration` provider: `read(key, default)` over the keys
the manager uses.  Absent keys are `none`; `read` applies the default. -/
structure Config where
  templatesDir : Option String
  authorName : Option String
  authorEmail : Option String
  customOptions : List (String × String)
  dirname : String
deriving DecidableEq

/-- `TEMPLATE_EXTENSION` from TemplatesManager.ts. -/
def TEMPLATE_EXTENSION : String := ".js"

/-- A catalog entry (`TTemplate` from types.ts as used by the manager). -/
structure TTemplate where
  name : String
  filename : String
  path : String
deriving DecidableEq

/-- `createdFile` component of `TTemplateOptions`. -/
structure TCreatedFile where
  fileName : String
  extension : String
  directoryFolderName : String
  directoryPath : String
deriving DecidableEq

/-- `author` component of `TTemplateOptions`. -/
structure TAuthor where
  name : String
  email : String
deriving DecidableEq

/-- The render context handed to a template module (`TTemplateOptions`). -/
structure TTemplateOptions where
  createdFile : TCreatedFile
  author : TAuthor
  customOptions : List (String × String)
deriving DecidableEq

/-- A thrown JavaScript value: whether it is a `SyntaxError` instance
(`e instanceof SyntaxError`) and its `message`. -/
structure JsErr where
  isSyntaxError : Bool
  message : String
deriving DecidableEq

/-- `e.toString()` of a thrown error value. -/
def JsErr.jsToString (e : JsErr) : String :=
  (if e.isSyntaxError then "SyntaxError: " else "Error: ") ++ e.message

/-- `templatesDirPath()`: configured override, else `path.join(__dirname, "templates")`. -/
def templatesDirPath (cfg : Config) : String :=
  cfg.templatesDir.getD (pathJoin cfg.dirname "templates")

/-- `templateFilePath(name)`: directory joined with `name + TEMPLATE_EXTENSION`. -/
def templateFilePath (cfg : Config) (templateName : String) : String :=
  pathJoin (templatesDirPath cfg) (templateName ++ TEMPLATE_EXTENSION)

/-- `existsTemplate(name)`: `fs.existsSync(templateFilePath(name))`. -/
def existsTemplate (s : FS) (cfg : Config) (templateName : String) : Bool :=
  s.existsSync (templateFilePath cfg templateName)

/-- `existsTemplatesDir()`. -/
def existsTemplatesDir (s : FS) (cfg : Config) : Bool :=
  s.existsSync (templatesDirPath cfg)

/-- `createTemplatesDirIfNotExists()`: create the directory when absent.
`mkdirOutcome` is the OS verdict on the `mkdirSync` call (its error message
when it would throw); on failure the fixed message is raised. -/
def createTemplatesDirIfNotExists (s : FS) (cfg : Config)
    (mkdirOutcome : Except String Unit) : Except String FS :=
  if existsTemplatesDir s cfg then .ok s
  else
    match mkdirOutcome with
    | .ok _ => .ok (s.mkdir (templatesDirPath cfg))
    | .error _ => .error "A error ocurred when trying create a templates directory."

/-- `createFileTemplate(name, content)`: collision check first, then ensure the
directory, then write.  Returns the outcome and the final filesystem. -/
def createFileTemplate (s : FS) (cfg : Config) (mkdirOutcome : Except String Unit)
    (templateName content : String) : Except String String × FS :=
  if existsTemplate s cfg templateName then
    (.error "The template name already exists, please choose other name.", s)
  else
    match createTemplatesDirIfNotExists s cfg mkdirOutcome with
    | .error e => (.error e, s)
    | .ok s' =>
      (.ok (templateFilePath cfg templateName),
        s'.writeFile (templateFilePath cfg templateName) content)

/-- `renderTemplateContent(template, options)`: `require(template.path)` is the
`loadResult` oracle.  An invocation throw is re-thrown as a `SyntaxError`
wrapping `e.toString()`; the outer catch forwards the message of any caught
`SyntaxError` and replaces every other failure with the generic message. -/
def renderTemplateContent
    (loadResult : Except JsErr (TTemplateOptions → Except JsErr String))
    (options : TTemplateOptions) : Except String String :=
  match loadResult with
  | .error e =>
    if e.isSyntaxError then .error e.message
    else .error "An error as ocurred rendering a template."
  | .ok templateRender =>
    match templateRender options with
    | .error e => .error ("Your template has sintax errors: " ++ e.jsToString)
    | .ok content => .ok content

/-- The `TTemplateOptions` value built inside `createNewFileBasedOnTemplate`. -/
def mkTemplateOptions (cfg : Config) (newFileName createFileDirectoryPath : String) :
    TTemplateOptions :=
  { createdFile := {
      fileName := baseNoExt newFileName
      extension := extname newFileName
      directoryFolderName := pathBasename createFileDirectoryPath
      directoryPath := createFileDirectoryPath }
    author := { name := cfg.authorName.getD "", email := cfg.authorEmail.getD "" }
    customOptions := cfg.customOptions }

/-- `createNewFileBasedOnTemplate(template, newFileName, createFileDirectoryPath)`:
re-validate the template by name, check the target directory, build the
options, render, then write.  Returns the outcome and the final filesystem. -/
def createNewFileBasedOnTemplate (s : FS) (cfg : Config)
    (loadResult : Except JsErr (TTemplateOptions → Except JsErr String))
    (template : TTemplate) (newFileName createFileDirectoryPath : String) :
    Except String String × FS :=
  if existsTemplate s cfg template.name then
    let newFileNameWithPath := pathJoin createFileDirectoryPath newFileName
    if s.existsSync createFileDirectoryPath then
      match renderTemplateContent loadResult
          (mkTemplateOptions cfg newFileName createFileDirectoryPath) with
      | .error e => (.error e, s)
      | .ok templateContent =>
        (.ok newFileNameWithPath, s.writeFile newFileNameWithPath templateContent)
    else (.error "The directory to create a file not exists.", s)
  else (.error "Inexistent template.", s)

/-- Modelled from the spec: the `ContextManager` module is not under `src/`;
per the spec, its `defaultTemplate` state holds "a fixed built-in fallback
source text that defines a minimal render function producing a small commented
header using `createdFile`, `author`, and the current date". -/
def defaultTemplateFallback : String :=
  "module.exports = (options) =>\n  \"/** \" + options.createdFile.fileName + \" created by \" + options.author.name + \" on \" + new Date().toLocaleDateString() + \" */\";\n"

/-- `getTemplateRenderEstructure()`: content of the `default` template when it
exists, else the `defaultTemplate` state; an empty result is rejected. -/
def getTemplateRenderEstructure (s : FS) (cfg : Config)
    (stateDefaultTemplate : String) : Except String String :=
  let templateDefault :=
    if existsTemplate s cfg "default" then
      (s.readFile (templateFilePath cfg "default")).getD ""
    else stateDefaultTemplate
  if templateDefault.length = 0 then
    .error "Sorry, Cannot retrieve a template renderer default."
  else .ok templateDefault

/-- One catalog entry as built inside `useTemplates`. -/
def tmplEntry (templatesDir templateFile : String) : String × TTemplate :=
  (baseNoExt templateFile,
    { name := baseNoExt templateFile
      filename := templateFile
      path := pathJoin templatesDir templateFile })

/-- `templates.has(name)` on the insertion-ordered association list. -/
def hasKey (k : String) (l : List (String × TTemplate)) : Bool :=
  l.any (fun p => p.1 == k)

/-- `templates.get(name)` on the insertion-ordered association list. -/
def lookupKey (k : String) : List (String × TTemplate) → Option TTemplate
  | [] => none
  | p :: rest => if p.1 == k then some p.2 else lookupKey k rest

/-- The `forEach` body of `useTemplates`: skip when the stem is present. -/
def addTemplate (templatesDir : String) (templates : List (String × TTemplate))
    (templateFile : String) : List (String × TTemplate) :=
  if hasKey (baseNoExt templateFile) templates then templates
  else templates ++ [tmplEntry templatesDir templateFile]

/-- The map built by `useTemplates` from a directory listing. -/
def buildTemplates (templatesDir : String) (filesTemplate : List String) :
    List (String × TTemplate) :=
  filesTemplate.foldl (addTemplate templatesDir) []

/-- `useTemplates()`: rejects on a `readdir` error, else builds the catalog. -/
def useTemplates (cfg : Config) (listing : Except String (List String)) :
    Except String (List (String × TTemplate)) :=
  match listing with
  | .error e => .error e
  | .ok filesTemplate => .ok (buildTemplates (templatesDirPath cfg) filesTemplate)

/-! ### Concrete fixtures used by witnesses and counterexamples -/

/-- A configuration with a custom templates directory `/t`. -/
def cfg0 : Config :=
  { templatesDir := some "/t", authorName := some "Ada", authorEmail := some "ada@site"
    customOptions := [("k", "v")], dirname := "/ext" }

/-- A render context at the fixture configuration. -/
def opts0 : TTemplateOptions := mkTemplateOptions cfg0 "world.txt" "/proj"
/-! ### Association-list lemmas for the `useTemplates` catalog -/

/-- First-hit choice between two association-list lookups. -/
def orLookup (o y : Option TTemplate) : Option TTemplate :=
  match o with
  | some v => some v
  | none => y

theorem orLookup_some (v : TTemplate) (y : Option TTemplate) :
    orLookup (some v) y = some v := rfl

theorem orLookup_none (y : Option TTemplate) : orLookup none y = y := rfl

theorem orLookup_self_none (o : Option TTemplate) : orLookup o none = o := by
  cases o <;> rfl

theorem lookupKey_append (k : String) (l1 l2 : List (String × TTemplate)) :
    lookupKey k (l1 ++ l2) = orLookup (lookupKey k l1) (lookupKey k l2) := by
  induction l1 with
  | nil => rfl
  | cons p rest ih =>
    by_cases h : (p.1 == k) = true
    · simp only [List.cons_append, lookupKey, if_pos h, orLookup_some]
    · simp only [List.cons_append, lookupKey, if_neg h]
      exact ih

theorem stemKey_ne (k name : String) :
    ∀ l : List (String × TTemplate),
      hasKey k l = true → lookupKey name l = none → (k == name) = false
  | [], hk, _ => by simp [hasKey] at hk
  | p :: rest, hk, hl => by
    by_cases hp : (p.1 == name) = true
    · simp only [lookupKey, if_pos hp] at hl
      exact (Option.some_ne_none _ hl).elim
    · simp only [lookupKey, if_neg hp] at hl
      by_cases hpk : (p.1 == k) = true
      · have hpe : p.1 = k := eq_of_beq hpk
        have hp' : (p.1 == name) = false := by simpa using hp
        rw [← hpe]
        exact hp'
      · have hpk' : (p.1 == k) = false := by simpa using hpk
        simp only [hasKey, List.any_cons, hpk', Bool.false_or] at hk
        exact stemKey_ne k name rest (by simpa [hasKey] using hk) hl

theorem lookupKey_foldl_addTemplate (td name : String) (files : List String) :
    ∀ acc : List (String × TTemplate),
      lookupKey name (files.foldl (addTemplate td) acc) =
        orLookup (lookupKey name acc)
          ((files.find? (fun f => baseNoExt f == name)).map fun f => (tmplEntry td f).2) := by
  induction files with
  | nil =>
    intro acc
    simp [orLookup_self_none]
  | cons f fs ih =>
    intro acc
    rw [List.foldl_cons, ih (addTemplate td acc f)]
    by_cases hk : hasKey (baseNoExt f) acc = true
    · have hadd : addTemplate td acc f = acc := by simp [addTemplate, hk]
      rw [hadd]
      cases h : lookupKey name acc with
      | some v => rw [orLookup_some, orLookup_some]
      | none =>
        have hne : (baseNoExt f == name) = false := stemKey_ne _ _ acc hk h
        rw [orLookup_none, orLookup_none, List.find?_cons_of_neg fs (by simpa using hne)]
    · have hk' : hasKey (baseNoExt f) acc = false := by simpa using hk
      have hadd : addTemplate td acc f = acc ++ [tmplEntry td f] := by
        simp [addTemplate, hk']
      rw [hadd, lookupKey_append]
      cases h : lookupKey name acc with
      | some v => rw [orLookup_some, orLookup_some, orLookup_some]
      | none =>
        rw [orLookup_none, orLookup_none]
        by_cases he : (baseNoExt f == name) = true
        · rw [List.find?_cons_of_pos fs (by simpa using he)]
          simp only [lookupKey, tmplEntry, if_pos he, orLookup_some]
          rfl
        · have he' : (baseNoExt f == name) = false := by simpa using he
          rw [List.find?_cons_of_neg fs (by simpa using he')]
          simp only [lookupKey, tmplEntry, if_neg he, orLookup_none]

/-! ### Substring lemmas for message-wrapping statements -/

theorem leadsWith_refl : ∀ l : List Char, leadsWith l l = true
  | [] => rfl
  | c :: cs => by simp [leadsWith, leadsWith_refl cs]

theorem containsSubList_self (t : List Char) : containsSubList t t = true := by
  cases t with
  | nil => rfl
  | cons c cs => simp [containsSubList, leadsWith_refl]

theorem containsSubList_append_left (t x y : List Char)
    (h : containsSubList t y = true) : containsSubList t (x ++ y) = true := by
  induction x with
  | nil => simpa using h
  | cons c cs ih => simp [containsSubList, ih]

theorem strToList_append (a b : String) : (a ++ b).toList = a.toList ++ b.toList := by
  simp [String.toList]

theorem containsSub_suffix (a b : String) : containsSub (a ++ b) b = true := by
  unfold containsSub
  rw [strToList_append]
  exact containsSubList_append_left _ _ _ (containsSubList_self _)

/-! ### C1: two-tier render error classification -/

/-- C1 (amended): a throw during invocation of the template's render function
is reported as "Your template has sintax errors: " wrapping the thrown value's
rendering, so the original message occurs in the result; a failure to load the
module yields the generic message "An error as ocurred rendering a template."
when the load-time exception is not a `SyntaxError`, while a load-time
`SyntaxError` (as `require` throws on a malformed module) has its own message
forwarded instead of the generic one. -/
theorem C1_render_two_tier_classification
    (load : Except JsErr (TTemplateOptions → Except JsErr String))
    (options : TTemplateOptions) :
    (∀ f e, load = .ok f → f options = .error e →
      renderTemplateContent load options =
        .error ("Your template has sintax errors: " ++ e.jsToString) ∧
      containsSub ("Your template has sintax errors: " ++ e.jsToString)
        e.message = true) ∧
    (∀ e, load = .error e → e.isSyntaxError = false →
      renderTemplateContent load options =
        .error "An error as ocurred rendering a template.") ∧
    (∀ e, load = .error e → e.isSyntaxError = true →
      renderTemplateContent load options = .error e.message) := by
  refine ⟨?_, ?_, ?_⟩
  · intro f e hl hf
    subst hl
    refine ⟨by simp [renderTemplateContent, hf], ?_⟩
    have hjs : "Your template has sintax errors: " ++ e.jsToString =
        ("Your template has sintax errors: " ++
          (if e.isSyntaxError then "SyntaxError: " else "Error: ")) ++ e.message := by
      rw [JsErr.jsToString, String.append_assoc]
    rw [hjs]
    exact containsSub_suffix _ _
  · intro e hl he
    subst hl
    simp [renderTemplateContent, he]
  · intro e hl he
    subst hl
    simp [renderTemplateContent, he]

/-- C1 counterexample: a load failure whose thrown value is a `SyntaxError`
instance (as `require` throws for a malformed module) is not reported with the
generic message: its own message is forwarded, refuting "for every failure to
load the module ... the resulting error carries the generic message". -/
theorem C1_counterexample :
    renderTemplateContent (.error (JsErr.mk true "Unexpected token")) opts0 =
      .error "Unexpected token" ∧
    "Unexpected token" ≠ "An error as ocurred rendering a template." :=
  ⟨rfl, by decide⟩

/-- C1 witness: the three branches of the amended classification at concrete
inputs. -/
theorem C1_witness :
    renderTemplateContent
        (.ok fun _ => .error (JsErr.mk false "boom")) opts0 =
      .error ("Your template has sintax errors: " ++
        (JsErr.mk false "boom").jsToString) ∧
    renderTemplateContent (.error (JsErr.mk false "ENOENT")) opts0 =
      .error "An error as ocurred rendering a template." ∧
    renderTemplateContent (.error (JsErr.mk true "bad token")) opts0 =
      .error "bad token" :=
  ⟨((C1_render_two_tier_classification
      (.ok fun _ => .error (JsErr.mk false "boom")) opts0).1
      (fun _ => .error (JsErr.mk false "boom")) (JsErr.mk false "boom") rfl rfl).1,
    (C1_render_two_tier_classification
      (.error (JsErr.mk false "ENOENT")) opts0).2.1 (JsErr.mk false "ENOENT") rfl rfl,
    (C1_render_two_tier_classification
      (.error (JsErr.mk true "bad token")) opts0).2.2 (JsErr.mk true "bad token") rfl rfl⟩

/-! ### C2: template creation, collision checked first -/

/-- C2: for a name not present (with the OS directory creation succeeding),
`createFileTemplate` returns the new file's path and `existsTemplate` becomes
true on the resulting filesystem; for a name already present it fails with the
name-collision error and, the check coming before any write, the filesystem —
in particular the existing template file's content — is left unchanged. -/
theorem C2_createFileTemplate_fresh_and_collision
    (s : FS) (cfg : Config) (n c : String) :
    (existsTemplate s cfg n = false →
      createFileTemplate s cfg (.ok ()) n c =
        (.ok (templateFilePath cfg n),
          (if existsTemplatesDir s cfg then s
            else s.mkdir (templatesDirPath cfg)).writeFile
            (templateFilePath cfg n) c) ∧
      existsTemplate (createFileTemplate s cfg (.ok ()) n c).2 cfg n = true) ∧
    (existsTemplate s cfg n = true →
      ∀ mk, createFileTemplate s cfg mk n c =
        (.error "The template name already exists, please choose other name.", s)) := by
  constructor
  · intro h
    by_cases hd : existsTemplatesDir s cfg = true
    · have heq : createFileTemplate s cfg (.ok ()) n c =
          (.ok (templateFilePath cfg n), s.writeFile (templateFilePath cfg n) c) := by
        simp [createFileTemplate, createTemplatesDirIfNotExists, h, hd]
      refine ⟨by rw [heq]; simp [hd], ?_⟩
      rw [heq]
      simp [existsTemplate, FS.existsSync, FS.isFile, FS.writeFile]
    · have hd' : existsTemplatesDir s cfg = false := by simpa using hd
      have heq : createFileTemplate s cfg (.ok ()) n c =
          (.ok (templateFilePath cfg n),
            (s.mkdir (templatesDirPath cfg)).writeFile (templateFilePath cfg n) c) := by
        simp [createFileTemplate, createTemplatesDirIfNotExists, h, hd']
      refine ⟨by rw [heq]; simp [hd'], ?_⟩
      rw [heq]
      simp [existsTemplate, FS.existsSync, FS.isFile, FS.writeFile]
  · intro h mk
    simp [createFileTemplate, h]

/-- C2 witness: creating `foo` on an empty filesystem succeeds and makes it
exist; creating `foo` again collides and leaves the filesystem unchanged. -/
theorem C2_witness :
    (createFileTemplate (FS.mk [] []) cfg0 (.ok ()) "foo" "body" =
      (.ok (templateFilePath cfg0 "foo"),
        (if existsTemplatesDir (FS.mk [] []) cfg0 then FS.mk [] []
          else (FS.mk [] []).mkdir (templatesDirPath cfg0)).writeFile
          (templateFilePath cfg0 "foo") "body") ∧
      existsTemplate (createFileTemplate (FS.mk [] []) cfg0 (.ok ()) "foo" "body").2
        cfg0 "foo" = true) ∧
    createFileTemplate (FS.mk [("/t/foo.js", "body")] ["/t"]) cfg0 (.ok ()) "foo" "again" =
      (.error "The template name already exists, please choose other name.",
        FS.mk [("/t/foo.js", "body")] ["/t"]) :=
  ⟨(C2_createFileTemplate_fresh_and_collision (FS.mk [] []) cfg0 "foo" "body").1
      (by decide),
    (C2_createFileTemplate_fresh_and_collision
      (FS.mk [("/t/foo.js", "body")] ["/t"]) cfg0 "foo" "again").2 (by decide) (.ok ())⟩

/-! ### C3: catalog keyed by stem, first file wins -/

/-- C3: `useTemplates` keys each entry by the filename stem and keeps only the
first-seen file on duplicate stems: looking a name up in the built catalog is
exactly finding the first listed file with that stem; in particular the listing
`a.ext`, `b.ext`, `a.ext2` yields exactly two entries, keyed `a` and `b`, with
`a` pointing at `a.ext`, the duplicate listed first. -/
theorem C3_useTemplates_stem_first_wins :
    (∀ cfg files name,
      useTemplates cfg (.ok files) = .ok (buildTemplates (templatesDirPath cfg) files) ∧
      lookupKey name (buildTemplates (templatesDirPath cfg) files) =
        (files.find? (fun f => baseNoExt f == name)).map
          fun f => (tmplEntry (templatesDirPath cfg) f).2) ∧
    ((buildTemplates "/t" ["a.ext", "b.ext", "a.ext2"]).length = 2 ∧
      lookupKey "a" (buildTemplates "/t" ["a.ext", "b.ext", "a.ext2"]) =
        some (TTemplate.mk "a" "a.ext" "/t/a.ext") ∧
      lookupKey "b" (buildTemplates "/t" ["a.ext", "b.ext", "a.ext2"]) =
        some (TTemplate.mk "b" "b.ext" "/t/b.ext")) := by
  constructor
  · intro cfg files name
    refine ⟨rfl, ?_⟩
    rw [buildTemplates, lookupKey_foldl_addTemplate]
    rfl
  · exact ⟨by decide, by decide, by decide⟩

/-! ### C4: nonexistent template, no write -/

/-- C4: when `template.name` does not resolve to an existing template file at
call time, `createNewFileBasedOnTemplate` fails with the inexistent-template
error and the filesystem is returned unchanged (no write is performed). -/
theorem C4_inexistent_template_no_write
    (s : FS) (cfg : Config)
    (load : Except JsErr (TTemplateOptions → Except JsErr String))
    (t : TTemplate) (newFileName dir : String)
    (h : existsTemplate s cfg t.name = false) :
    createNewFileBasedOnTemplate s cfg load t newFileName dir =
      (.error "Inexistent template.", s) := by
  simp [createNewFileBasedOnTemplate, h]

/-- C4 witness: a call against an empty templates directory fails with the
inexistent-template error and leaves the filesystem unchanged. -/
theorem C4_witness :
    createNewFileBasedOnTemplate (FS.mk [] ["/t", "/d"]) cfg0
        (.ok fun _ => .ok "text") (TTemplate.mk "ghost" "ghost.js" "/t/ghost.js")
        "w.txt" "/d" =
      (.error "Inexistent template.", FS.mk [] ["/t", "/d"]) :=
  C4_inexistent_template_no_write (FS.mk [] ["/t", "/d"]) cfg0
    (.ok fun _ => .ok "text") (TTemplate.mk "ghost" "ghost.js" "/t/ghost.js")
    "w.txt" "/d" (by decide)

/-! ### C5: missing target directory, no write -/

/-- C5: with an existing template but an absent target directory,
`createNewFileBasedOnTemplate` fails with the directory-missing error and the
filesystem is returned unchanged (no write is performed). -/
theorem C5_missing_directory_no_write
    (s : FS) (cfg : Config)
    (load : Except JsErr (TTemplateOptions → Except JsErr String))
    (t : TTemplate) (newFileName dir : String)
    (h1 : existsTemplate s cfg t.name = true)
    (h2 : s.existsSync dir = false) :
    createNewFileBasedOnTemplate s cfg load t newFileName dir =
      (.error "The directory to create a file not exists.", s) := by
  simp [createNewFileBasedOnTemplate, h1, h2]

/-- C5 witness: template `a` exists but the target directory `/missing` does
not; the call fails with the directory-missing error and performs no write. -/
theorem C5_witness :
    createNewFileBasedOnTemplate (FS.mk [("/t/a.js", "T")] ["/t"]) cfg0
        (.ok fun _ => .ok "text") (TTemplate.mk "a" "a.js" "/t/a.js")
        "w.txt" "/missing" =
      (.error "The directory to create a file not exists.",
        FS.mk [("/t/a.js", "T")] ["/t"]) :=
  C5_missing_directory_no_write (FS.mk [("/t/a.js", "T")] ["/t"]) cfg0
    (.ok fun _ => .ok "text") (TTemplate.mk "a" "a.js" "/t/a.js")
    "w.txt" "/missing" (by decide) (by decide)

/-! ### C6: successful render is written verbatim, overwriting -/

/-- C6: on a successful call, the exact string the render step produced is
written — with no post-processing — to `path.join(targetDir, newFileName)`,
that path is returned, and reading the destination afterwards yields exactly
the rendered string whatever file was there before (last write wins, no
destination existence check appears in any hypothesis). -/
theorem C6_success_writes_rendered_verbatim
    (s : FS) (cfg : Config)
    (load : Except JsErr (TTemplateOptions → Except JsErr String))
    (t : TTemplate) (newFileName dir c : String)
    (h1 : existsTemplate s cfg t.name = true)
    (h2 : s.existsSync dir = true)
    (h3 : renderTemplateContent load (mkTemplateOptions cfg newFileName dir) = .ok c) :
    createNewFileBasedOnTemplate s cfg load t newFileName dir =
      (.ok (pathJoin dir newFileName),
        s.writeFile (pathJoin dir newFileName) c) ∧
    (s.writeFile (pathJoin dir newFileName) c).readFile
      (pathJoin dir newFileName) = some c := by
  refine ⟨by simp [createNewFileBasedOnTemplate, h1, h2, h3], ?_⟩
  simp [FS.readFile, FS.writeFile, List.find?]

/-- C6 witness: rendering `new` over a destination that already holds `old`
returns the joined path and leaves exactly `new` at the destination. -/
theorem C6_witness :
    createNewFileBasedOnTemplate
        (FS.mk [("/t/a.js", "T"), ("/d/w.txt", "old")] ["/t", "/d"]) cfg0
        (.ok fun _ => .ok "new") (TTemplate.mk "a" "a.js" "/t/a.js") "w.txt" "/d" =
      (.ok (pathJoin "/d" "w.txt"),
        (FS.mk [("/t/a.js", "T"), ("/d/w.txt", "old")] ["/t", "/d"]).writeFile
          (pathJoin "/d" "w.txt") "new") ∧
    ((FS.mk [("/t/a.js", "T"), ("/d/w.txt", "old")] ["/t", "/d"]).writeFile
        (pathJoin "/d" "w.txt") "new").readFile (pathJoin "/d" "w.txt") =
      some "new" :=
  C6_success_writes_rendered_verbatim
    (FS.mk [("/t/a.js", "T"), ("/d/w.txt", "old")] ["/t", "/d"]) cfg0
    (.ok fun _ => .ok "new") (TTemplate.mk "a" "a.js" "/t/a.js") "w.txt" "/d" "new"
    (by decide) (by decide) rfl

/-! ### C9: a render error leaves the destination untouched -/

/-- C9: when the render step fails with any error — load failure or
invocation failure alike — `createNewFileBasedOnTemplate` propagates that
error and returns the filesystem unchanged, so nothing is written at
`path.join(targetDir, newFileName)`. -/
theorem C9_render_error_leaves_fs_unchanged
    (s : FS) (cfg : Config)
    (load : Except JsErr (TTemplateOptions → Except JsErr String))
    (t : TTemplate) (newFileName dir msg : String)
    (h1 : existsTemplate s cfg t.name = true)
    (h2 : s.existsSync dir = true)
    (h3 : renderTemplateContent load (mkTemplateOptions cfg newFileName dir) =
      .error msg) :
    createNewFileBasedOnTemplate s cfg load t newFileName dir = (.error msg, s) ∧
    (createNewFileBasedOnTemplate s cfg load t newFileName dir).2.readFile
      (pathJoin dir newFileName) = s.readFile (pathJoin dir newFileName) := by
  have heq : createNewFileBasedOnTemplate s cfg load t newFileName dir =
      (.error msg, s) := by
    simp [createNewFileBasedOnTemplate, h1, h2, h3]
  exact ⟨heq, by rw [heq]⟩

/-- C9 witness: a template whose render function throws leaves the
filesystem — including the destination path — unchanged. -/
theorem C9_witness :
    createNewFileBasedOnTemplate (FS.mk [("/t/a.js", "T")] ["/t", "/d"]) cfg0
        (.ok fun _ => .error (JsErr.mk false "kaput"))
        (TTemplate.mk "a" "a.js" "/t/a.js") "w.txt" "/d" =
      (.error ("Your template has sintax errors: " ++ (JsErr.mk false "kaput").jsToString),
        FS.mk [("/t/a.js", "T")] ["/t", "/d"]) :=
  (C9_render_error_leaves_fs_unchanged (FS.mk [("/t/a.js", "T")] ["/t", "/d"]) cfg0
    (.ok fun _ => .error (JsErr.mk false "kaput"))
    (TTemplate.mk "a" "a.js" "/t/a.js") "w.txt" "/d"
    ("Your template has sintax errors: " ++ (JsErr.mk false "kaput").jsToString)
    (by decide) (by decide) rfl).1

/-! ### C10: call-time re-validation looks only for name + ".js" -/

/-- C10: the re-validation in `createNewFileBasedOnTemplate` checks only for a
file named `template.name ++ ".js"` in the templates directory and ignores the
catalog entry's `filename` and `path`: when the file at `template.path` exists
but its extension is not `.js` and no same-named `.js` file exists, the call
fails with the inexistent-template error. -/
theorem C10_revalidation_ignores_catalog_path
    (s : FS) (cfg : Config)
    (load : Except JsErr (TTemplateOptions → Except JsErr String))
    (t : TTemplate) (newFileName dir : String)
    (h1 : s.isFile t.path = true)
    (h2 : extnameBase t.filename ≠ TEMPLATE_EXTENSION)
    (h3 : s.existsSync (templateFilePath cfg t.name) = false) :
    createNewFileBasedOnTemplate s cfg load t newFileName dir =
      (.error "Inexistent template.", s) := by
  simp [createNewFileBasedOnTemplate, existsTemplate, h3]

/-- C10 witness: `a.mjs` is listed in the catalog and exists on disk, but with
no `a.js` present the call still fails with the inexistent-template error. -/
theorem C10_witness :
    (FS.mk [("/t/a.mjs", "T")] ["/t", "/d"]).isFile "/t/a.mjs" = true ∧
    extnameBase "a.mjs" ≠ TEMPLATE_EXTENSION ∧
    createNewFileBasedOnTemplate (FS.mk [("/t/a.mjs", "T")] ["/t", "/d"]) cfg0
        (.ok fun _ => .ok "text") (TTemplate.mk "a" "a.mjs" "/t/a.mjs")
        "w.txt" "/d" =
      (.error "Inexistent template.", FS.mk [("/t/a.mjs", "T")] ["/t", "/d"]) :=
  ⟨by decide, by decide,
    C10_revalidation_ignores_catalog_path (FS.mk [("/t/a.mjs", "T")] ["/t", "/d"])
      cfg0 (.ok fun _ => .ok "text") (TTemplate.mk "a" "a.mjs" "/t/a.mjs")
      "w.txt" "/d" (by decide) (by decide) (by decide)⟩

/-! ### C7: the default skeleton -/

/-- C7 counterexample: with a `default` template present but empty,
`getTemplateRenderEstructure` does not return its content (nor any string):
it fails with "Sorry, Cannot retrieve a template renderer default.", refuting
"returns the content of an existing template named 'default' whenever one is
present ... it always returns a string in both cases". -/
theorem C7_counterexample :
    existsTemplate (FS.mk [("/t/default.js", "")] ["/t"]) cfg0 "default" = true ∧
    getTemplateRenderEstructure (FS.mk [("/t/default.js", "")] ["/t"]) cfg0
        defaultTemplateFallback =
      .error "Sorry, Cannot retrieve a template renderer default." :=
  ⟨by decide, rfl⟩

set_option maxRecDepth 8192 in
/-- C7 (amended): with the `defaultTemplate` state holding the built-in
fallback, the skeleton is the content of an existing `default` template
whenever one is present with nonempty content; when no `default` template
exists it is the fixed built-in fallback text, which is nonempty; a present
but empty `default` template instead raises the cannot-retrieve error. -/
theorem C7_default_skeleton (s : FS) (cfg : Config) :
    (∀ c, existsTemplate s cfg "default" = true →
      s.readFile (templateFilePath cfg "default") = some c → c.length ≠ 0 →
      getTemplateRenderEstructure s cfg defaultTemplateFallback = .ok c) ∧
    (existsTemplate s cfg "default" = false →
      getTemplateRenderEstructure s cfg defaultTemplateFallback =
        .ok defaultTemplateFallback) ∧
    defaultTemplateFallback.length ≠ 0 := by
  refine ⟨?_, ?_, by decide⟩
  · intro c h1 h2 h3
    simp [getTemplateRenderEstructure, h1, h2, h3]
  · intro h
    have hne : ¬ defaultTemplateFallback.length = 0 := by decide
    simp [getTemplateRenderEstructure, h, hne]

/-- C7 witness: a nonempty `default` template's content is returned; with no
`default` template the built-in fallback is returned. -/
theorem C7_witness :
    getTemplateRenderEstructure (FS.mk [("/t/default.js", "X")] ["/t"]) cfg0
        defaultTemplateFallback = .ok "X" ∧
    getTemplateRenderEstructure (FS.mk [] ["/t"]) cfg0 defaultTemplateFallback =
      .ok defaultTemplateFallback :=
  ⟨(C7_default_skeleton (FS.mk [("/t/default.js", "X")] ["/t"]) cfg0).1 "X"
      (by decide) rfl (by decide),
    (C7_default_skeleton (FS.mk [] ["/t"]) cfg0).2.1 (by decide)⟩

/-! ### C8: templates directory creation -/

/-- C8 counterexample: when `mkdirSync` fails with an OS error, the raised
message is the fixed "A error ocurred when trying create a templates
directory.", which does not contain the underlying OS error text, refuting
"raises a creation error whose message wraps (includes) the underlying OS
error". -/
theorem C8_counterexample :
    createTemplatesDirIfNotExists (FS.mk [] []) cfg0
        (.error "EACCES: permission denied") =
      .error "A error ocurred when trying create a templates directory." ∧
    containsSub "A error ocurred when trying create a templates directory."
      "EACCES: permission denied" = false :=
  ⟨rfl, by decide⟩

/-- C8 (amended): `createTemplatesDirIfNotExists` is idempotent — when the
directory already exists it succeeds without touching the filesystem,
whatever the OS would say — and when the underlying creation fails it raises
the fixed creation-error message, which does not include the underlying OS
error text. -/
theorem C8_mkdir_idempotent_fixed_error (s : FS) (cfg : Config) :
    (existsTemplatesDir s cfg = true →
      ∀ mk, createTemplatesDirIfNotExists s cfg mk = .ok s) ∧
    (existsTemplatesDir s cfg = false →
      ∀ osMsg, createTemplatesDirIfNotExists s cfg (.error osMsg) =
        .error "A error ocurred when trying create a templates directory.") := by
  constructor
  · intro h mk
    simp [createTemplatesDirIfNotExists, h]
  · intro h osMsg
    simp [createTemplatesDirIfNotExists, h]

/-- C8 witness: a second call with the directory already present is a no-op
success; a failing creation on an empty filesystem raises the fixed message. -/
theorem C8_witness :
    createTemplatesDirIfNotExists (FS.mk [] ["/t"]) cfg0 (.ok ()) =
      .ok (FS.mk [] ["/t"]) ∧
    createTemplatesDirIfNotExists (FS.mk [] []) cfg0 (.error "EPERM") =
      .error "A error ocurred when trying create a templates directory." :=
  ⟨(C8_mkdir_idempotent_fixed_error (FS.mk [] ["/t"]) cfg0).1 (by decide) (.ok ()),
    (C8_mkdir_idempotent_fixed_error (FS.mk [] []) cfg0).2 (by decide) "EPERM"⟩
